import Mathlib

/-!
Shallow embedding of the e-commerce backend (FastAPI + SQLAlchemy + PostgreSQL)
for verification of its design specification.

Rows of the relational tables are Lean structures; a database snapshot is a
structure of lists of rows plus the next autoincrement keys.  SQLAlchemy
`Numeric` / `Float` columns and PostgreSQL `ts_rank_cd` scores are embedded as
rationals (ℚ); nullable columns as `Option`.  HTTP failure paths
(`HTTPException`) become `Except HTTPError`.  The PostgreSQL full-text
machinery (`websearch_to_tsquery`, `@@`, `ts_rank_cd`) is abstracted by a
`SearchSem` record of oracle functions, universally quantified in the
theorems; the generated `tsv` column of `app/models/products.py` is embedded
separately (for the search-vector claim) as a list of weighted lexemes over an
abstract per-language tokenizer.  SQL `ORDER BY` over a total order is
embedded with `List.insertionSort`, and `LIMIT`/`OFFSET` with
`List.take`/`List.drop`.
-/

namespace ECom

/-- HTTP error raised by a handler (`fastapi.HTTPException`). -/
structure HTTPError where
  status_code : Nat
  detail : String
deriving DecidableEq, Repr

/-- Row of the `products` table (`app/models/products.py`); `price` is kept
`Option` so that the SQL trivalent comparisons and the cart's
null-price guard can be embedded as in the code. -/
structure Product where
  id : Nat
  name : String
  description : Option String
  price : Option ℚ
  stock : Nat
  is_active : Bool
  category_id : Nat
  seller_id : Nat
  raiting : ℚ
deriving DecidableEq, Repr

/-- Row of the `categories` table (`app/models/categories.py`). -/
structure Category where
  id : Nat
  name : String
  is_active : Bool
  parent_id : Option Nat
deriving DecidableEq, Repr

/-- Row of the `reviews` table (`app/models/reviews.py`). -/
structure Review where
  id : Nat
  user_id : Nat
  product_id : Nat
  comment : Option String
  grade : Nat
  is_active : Bool
deriving DecidableEq, Repr

/-- Row of the `cart_items` table (`app/models/cart_items.py`). -/
structure CartItem where
  id : Nat
  user_id : Nat
  product_id : Nat
  quantity : Nat
deriving DecidableEq, Repr

/-- Snapshot of the database. `next_review_id` / `next_cart_item_id` model the
autoincrement primary keys. -/
structure DB where
  products : List Product
  categories : List Category
  reviews : List Review
  cart_items : List CartItem
  next_review_id : Nat
  next_cart_item_id : Nat
deriving DecidableEq, Repr

/-! ## Database service helpers (`app/database/db_services.py`) -/

/-- Embeds `check_category_id`: first active category with the id, else
HTTP 400 "Category not found or inactive" (the code raises 400 here). -/
def check_category_id (category_id : Nat) (db : DB) : Except HTTPError Category :=
  match db.categories.find? (fun c => c.id == category_id && c.is_active) with
  | some c => .ok c
  | none => .error ⟨400, "Category not found or inactive"⟩

/-- Embeds `check_product_id`: first active product with the id, else
HTTP 404 "Product not found or inactive". -/
def check_product_id (product_id : Nat) (db : DB) : Except HTTPError Product :=
  match db.products.find? (fun p => p.id == product_id && p.is_active) with
  | some p => .ok p
  | none => .error ⟨404, "Product not found or inactive"⟩

/-- SQL `ReviewModel.product.has(ProductModel.is_active == True)`: some
product row with the review's foreign key is active. -/
def productActive (db : DB) (product_id : Nat) : Bool :=
  db.products.any (fun p => p.id == product_id && p.is_active)

/-- Embeds `check_review_id`: review must exist, be active, and its product
must be active, else HTTP 404 "Review not found". -/
def check_review_id (review_id : Nat) (db : DB) : Except HTTPError Review :=
  match db.reviews.find?
      (fun r => r.id == review_id && r.is_active && productActive db r.product_id) with
  | some r => .ok r
  | none => .error ⟨404, "Review not found"⟩

/-- Active reviews of a product, as stored (`ReviewModel.product_id == pid`
and `ReviewModel.is_active == True`). -/
def activeReviews (product_id : Nat) (db : DB) : List Review :=
  db.reviews.filter (fun r => r.product_id == product_id && r.is_active)

/-- Embeds `update_product_grade`: `SELECT avg(grade)` over the product's
active reviews (SQL `avg` of an empty set is NULL, turned into 0.0 by
`result.scalar() or 0.0`), written into the product's `raiting` column. -/
def update_product_grade (product_id : Nat) (db : DB) : DB :=
  let grades := (activeReviews product_id db).map (fun r => (r.grade : ℚ))
  let avg_rating : ℚ := if grades.length = 0 then 0 else grades.sum / grades.length
  { db with
    products := db.products.map
      (fun p => if p.id == product_id then { p with raiting := avg_rating } else p) }

/-- Embeds `get_cart_item`: first cart row of the (user, product) pair. -/
def get_cart_item (user_id product_id : Nat) (db : DB) : Option CartItem :=
  db.cart_items.find? (fun it => it.user_id == user_id && it.product_id == product_id)

/-! ## Product listing (`GET /products/`, `app/routers/products.py`) -/

/-- The two text-search configurations used by the endpoint. -/
inductive TSLang
  | english
  | russian
deriving DecidableEq, Repr

/-- Abstract PostgreSQL full-text semantics: `tsMatch lang q pr` embeds
`pr.tsv @@ websearch_to_tsquery(lang, q)` and `tsRankCd lang q pr` embeds
`ts_rank_cd(pr.tsv, websearch_to_tsquery(lang, q))`.  The theorems hold for
every such oracle. -/
structure SearchSem where
  tsMatch : TSLang → String → Product → Bool
  tsRankCd : TSLang → String → Product → ℚ

/-- Query parameters of `get_all_products` (validated by FastAPI `Query`:
`page ≥ 1`, `1 ≤ page_size ≤ 100`, prices ≥ 0). -/
structure ListingParams where
  page : Nat
  page_size : Nat
  category_id : Option Nat
  min_price : Option ℚ
  max_price : Option ℚ
  in_stock : Option Bool
  seller_id : Option Nat
  search : Option String
deriving Repr

/-- SQL comparison `price >= m` under trivalent logic: NULL price never
matches. -/
def priceGE (price : Option ℚ) (m : ℚ) : Bool :=
  match price with
  | none => false
  | some x => decide (m ≤ x)

/-- SQL comparison `price <= m` under trivalent logic. -/
def priceLE (price : Option ℚ) (m : ℚ) : Bool :=
  match price with
  | none => false
  | some x => decide (x ≤ m)

/-- The conjunctive predicate list built at lines 41-52 of
`app/routers/products.py` (before the optional search predicate). -/
def buildFilters (p : ListingParams) : List (Product → Bool) :=
  [fun pr => pr.is_active]
  ++ (p.category_id.map (fun c => fun pr => pr.category_id == c)).toList
  ++ (p.min_price.map (fun m => fun pr => priceGE pr.price m)).toList
  ++ (p.max_price.map (fun m => fun pr => priceLE pr.price m)).toList
  ++ (p.in_stock.map (fun b => fun pr =>
        if b then decide (0 < pr.stock) else pr.stock == 0)).toList
  ++ (p.seller_id.map (fun s => fun pr => pr.seller_id == s)).toList

/-- Conjunction of a predicate list, as `.where(*filters)`. -/
def satisfiesAll (fs : List (Product → Bool)) (pr : Product) : Bool :=
  fs.all (fun f => f pr)

/-- Python `str.strip()`: drop leading and trailing whitespace. Implemented
over the character list so that it evaluates inside the kernel. -/
def pyStrip (s : String) : String :=
  ⟨((s.data.dropWhile Char.isWhitespace).reverse.dropWhile Char.isWhitespace).reverse⟩

/-- The handler's two-step guard `if search:` (falsy for `None` and `""`)
followed by `search_value = search.strip(); if search_value:`; returns the
effective search text when the search branch is taken. -/
def effectiveSearch (search : Option String) : Option String :=
  match search with
  | none => none
  | some s =>
    if s = "" then none
    else
      let search_value := pyStrip s
      if search_value = "" then none else some search_value

/-- The text-search predicate appended to the filter list:
`tsv @@ eng_query OR tsv @@ rus_query`. -/
def searchFilter (sem : SearchSem) (v : String) : Product → Bool :=
  fun pr => sem.tsMatch .english v pr || sem.tsMatch .russian v pr

/-- The rank column `greatest(ts_rank_cd(tsv, eng), ts_rank_cd(tsv, rus))`. -/
def rankOf (sem : SearchSem) (v : String) (pr : Product) : ℚ :=
  max (sem.tsRankCd .english v pr) (sem.tsRankCd .russian v pr)

/-- `ORDER BY rank DESC, id` as a total order on product rows. -/
def rankOrder (sem : SearchSem) (v : String) (a b : Product) : Prop :=
  rankOf sem v b < rankOf sem v a ∨ (rankOf sem v a = rankOf sem v b ∧ a.id ≤ b.id)

instance (sem : SearchSem) (v : String) : DecidableRel (rankOrder sem v) :=
  fun a b => by unfold rankOrder; infer_instance

/-- `ORDER BY id` as a total order on product rows. -/
def idOrder (a b : Product) : Prop := a.id ≤ b.id

instance : DecidableRel idOrder := fun a b => by unfold idOrder; infer_instance

/-- Response shape of the listing endpoint (`ProductList` in
`app/schemas.py`): `ranks : list[float] | None`. -/
structure ProductListResp where
  items : List Product
  ranks : Option (List ℚ)
  total : Nat
  page : Nat
  page_size : Nat
deriving DecidableEq, Repr

/-- The early range guard at lines 35-39 of `app/routers/products.py`. -/
def badPriceRange (p : ListingParams) : Bool :=
  match p.min_price, p.max_price with
  | some mn, some mx => decide (mx < mn)
  | _, _ => false

/-- Embeds `get_all_products` (`GET /products/`).  The second component of
the result counts the SQL statements executed (count query and page query);
the range-guard error path raises before any statement runs.  When search
text is effective, the count statement is the one rebuilt at line 72 with
the search predicate included; the page query orders by rank descending then
id, and the handler returns the rank column of the returned rows; without
effective search text, `ranks` stays the initial `[]` and ordering is by id. -/
def get_all_products (sem : SearchSem) (products : List Product)
    (p : ListingParams) : Except HTTPError ProductListResp × Nat :=
  if badPriceRange p then
    (.error ⟨400, "min_price не может быть больше max_price"⟩, 0)
  else
    match effectiveSearch p.search with
    | some search_value =>
      let filters := buildFilters p ++ [searchFilter sem search_value]
      let matched := products.filter (satisfiesAll filters)
      let total := matched.length
      let sorted := matched.insertionSort (rankOrder sem search_value)
      let items := (sorted.drop ((p.page - 1) * p.page_size)).take p.page_size
      (.ok { items := items
             ranks := some (items.map (rankOf sem search_value))
             total := total
             page := p.page
             page_size := p.page_size }, 2)
    | none =>
      let matched := products.filter (satisfiesAll (buildFilters p))
      let total := matched.length
      let sorted := matched.insertionSort idOrder
      let items := (sorted.drop ((p.page - 1) * p.page_size)).take p.page_size
      (.ok { items := items
             ranks := some []
             total := total
             page := p.page
             page_size := p.page_size }, 2)

/-- Embeds `get_products_by_category` (`GET /products/category/{id}`):
category existence check first (HTTP 400 on failure), then the active
products of the category. -/
def get_products_by_category (category_id : Nat) (db : DB) :
    Except HTTPError (List Product) :=
  match check_category_id category_id db with
  | .error e => .error e
  | .ok _ =>
    .ok (db.products.filter (fun pr => pr.category_id == category_id && pr.is_active))

/-! ## Cart (`app/routers/cart.py`) -/

/-- Request body `CartItemCreate` (`quantity ≥ 1` enforced by the schema). -/
structure CartItemCreate where
  product_id : Nat
  quantity : Nat
deriving DecidableEq, Repr

/-- Embeds `add_item_to_cart` (`POST /cart/items`): product existence check,
then find-then-increment on the existing (user, product) row, else insert of
a fresh row; finally the row is re-read and returned. -/
def add_item_to_cart (user_id : Nat) (c : CartItemCreate) (db : DB) :
    Except HTTPError (Option CartItem × DB) :=
  match check_product_id c.product_id db with
  | .error e => .error e
  | .ok _ =>
    let db1 :=
      match get_cart_item user_id c.product_id db with
      | some cart_item =>
        { db with
          cart_items := db.cart_items.map
            (fun it =>
              if it.id == cart_item.id then
                { it with quantity := it.quantity + c.quantity }
              else it) }
      | none =>
        { db with
          cart_items :=
            db.cart_items ++ [⟨db.next_cart_item_id, user_id, c.product_id, c.quantity⟩]
          next_cart_item_id := db.next_cart_item_id + 1 }
    .ok (get_cart_item user_id c.product_id db1, db1)

/-- Folds a sequence of `add_item_to_cart` calls for one (user, product)
pair, propagating the first failure. -/
def addSeq (user_id product_id : Nat) (qs : List Nat) (db : DB) :
    Except HTTPError DB :=
  match qs with
  | [] => .ok db
  | q :: rest =>
    match add_item_to_cart user_id ⟨product_id, q⟩ db with
    | .ok (_, db1) => addSeq user_id product_id rest db1
    | .error e => .error e

/-- A cart row joined with its product (`selectinload(CartItemModel.product)`). -/
structure CartEntry where
  item : CartItem
  product : Product
deriving DecidableEq, Repr

/-- Response shape `Cart` of `app/schemas.py`. -/
structure CartResp where
  user_id : Nat
  items : List CartEntry
  total_quantity : Nat
  total_price : ℚ
deriving DecidableEq, Repr

/-- Embeds `get_cart` (`GET /cart/`): the user's cart rows ordered by id,
each joined with its product row; the totals are accumulated by the loop at
lines 44-46 of `app/routers/cart.py`, a missing product price counting as 0. -/
def get_cart (user_id : Nat) (db : DB) : CartResp :=
  let rows := (db.cart_items.filter (fun it => it.user_id == user_id)).insertionSort
      (fun a b => a.id ≤ b.id)
  let items := rows.filterMap
      (fun it => (db.products.find? (fun p => p.id == it.product_id)).map
        (fun p => CartEntry.mk it p))
  let total_quantity := items.foldl (fun acc e => acc + e.item.quantity) 0
  let total_price := items.foldl
      (fun acc e =>
        acc + (e.item.quantity : ℚ) * (match e.product.price with
          | some x => x
          | none => 0)) 0
  ⟨user_id, items, total_quantity, total_price⟩

/-! ## Reviews (`app/routers/reviews.py`) -/

/-- Request body `ReviewCreate` (`1 ≤ grade ≤ 5` enforced by the schema). -/
structure ReviewCreate where
  product_id : Nat
  comment : Option String
  grade : Nat
deriving DecidableEq, Repr

/-- Request body `ReviewUpdate`. -/
structure ReviewUpdate where
  comment : Option String
  grade : Nat
deriving DecidableEq, Repr

/-- Embeds `create_review` (`POST /reviews/`): active-product check, insert
of an active review row, then synchronous `update_product_grade`. -/
def create_review (user_id : Nat) (rc : ReviewCreate) (db : DB) :
    Except HTTPError (Review × DB) :=
  match check_product_id rc.product_id db with
  | .error e => .error e
  | .ok product_db =>
    let new_review : Review :=
      ⟨db.next_review_id, user_id, rc.product_id, rc.comment, rc.grade, true⟩
    let db1 := { db with
      reviews := db.reviews ++ [new_review]
      next_review_id := db.next_review_id + 1 }
    .ok (new_review, update_product_grade product_db.id db1)

/-- Embeds `update_review` (`PUT /reviews/{id}/`): active review of an
active product, author check (403), column update, then synchronous
`update_product_grade`. -/
def update_review (user_id review_id : Nat) (ru : ReviewUpdate) (db : DB) :
    Except HTTPError DB :=
  match check_review_id review_id db with
  | .error e => .error e
  | .ok review_db =>
    if review_db.user_id ≠ user_id then
      .error ⟨403, "You can only update your own reviews"⟩
    else
      let db1 := { db with
        reviews := db.reviews.map
          (fun r =>
            if r.id == review_id then
              { r with comment := ru.comment, grade := ru.grade }
            else r) }
      .ok (update_product_grade review_db.product_id db1)

/-- Embeds `delete_review` (`DELETE /reviews/{id}/`, admin): active review
of an active product, soft delete (clear the active flag), then synchronous
`update_product_grade`. -/
def delete_review (review_id : Nat) (db : DB) : Except HTTPError DB :=
  match check_review_id review_id db with
  | .error e => .error e
  | .ok review_db =>
    let db1 := { db with
      reviews := db.reviews.map
        (fun r => if r.id == review_id then { r with is_active := false } else r) }
    .ok (update_product_grade review_db.product_id db1)

/-- Mean of `grade` over the active reviews of a product, 0 when there are
none — the value `update_product_grade` stores. -/
def meanActiveGrade (product_id : Nat) (db : DB) : ℚ :=
  let grades := (activeReviews product_id db).map (fun r => (r.grade : ℚ))
  if grades.length = 0 then 0 else grades.sum / grades.length

/-- The `raiting` column of the first product row with the given id. -/
def storedRaiting (product_id : Nat) (db : DB) : Option ℚ :=
  (db.products.find? (fun p => p.id == product_id)).map Product.raiting

/-! ## The generated search-vector column (`Product.tsv`) -/

/-- Weight labels of `setweight`. -/
inductive TSWeight
  | A
  | B
deriving DecidableEq, Repr

/-- SQL `coalesce(col, '')`. -/
def coalesce (s : Option String) : String := s.getD ""

/-- `to_tsvector(lang, s)` over an abstract per-language tokenizer `tv`:
the lexemes of `s` tagged with their language. -/
def to_tsvector (tv : TSLang → String → List String) (lang : TSLang) (s : String) :
    List (TSLang × String) :=
  (tv lang s).map (fun t => (lang, t))

/-- SQL `setweight(vector, w)`. -/
def setweight (v : List (TSLang × String)) (w : TSWeight) :
    List ((TSLang × String) × TSWeight) :=
  v.map (fun l => (l, w))

/-- The `Computed` expression of the `tsv` column exactly as written at
lines 33-45 of `app/models/products.py`: note that the third summand applies
the English configuration to `name` again, not to `description`. -/
def product_tsv (tv : TSLang → String → List String) (name description : Option String) :
    List ((TSLang × String) × TSWeight) :=
  setweight (to_tsvector tv .english (coalesce name)) .A
  ++ setweight (to_tsvector tv .russian (coalesce name)) .A
  ++ setweight (to_tsvector tv .english (coalesce name)) .A
  ++ setweight (to_tsvector tv .russian (coalesce description)) .B

/-- Modelled from the spec: the search vector the design document describes
("text-search index over name+description, weighted: name higher weight than
description, combined English+Russian lexical forms") — both configurations
applied to both columns, name at weight A, description at weight B. -/
def product_tsv_spec (tv : TSLang → String → List String) (name description : Option String) :
    List ((TSLang × String) × TSWeight) :=
  setweight (to_tsvector tv .english (coalesce name)) .A
  ++ setweight (to_tsvector tv .russian (coalesce name)) .A
  ++ setweight (to_tsvector tv .english (coalesce description)) .B
  ++ setweight (to_tsvector tv .russian (coalesce description)) .B

/-! ## Concrete fixtures used by witnesses and counterexamples -/

/-- A search oracle used in witnesses: matching is equality of the product
name with the query text, rank is 1 on a match, else 0. -/
def semW : SearchSem :=
  ⟨fun _ v pr => pr.name == v, fun _ v pr => if pr.name == v then 1 else 0⟩

/-- Fixture product 1: active, category 1, in stock. -/
def prodW1 : Product := ⟨1, "apple", some "fruit", some 10, 5, true, 1, 1, 0⟩

/-- Fixture product 2: active, category 1, out of stock. -/
def prodW2 : Product := ⟨2, "pear", none, some 20, 0, true, 1, 2, 0⟩

/-- Fixture product 3: inactive. -/
def prodW3 : Product := ⟨3, "apple", some "red", some 30, 2, false, 2, 1, 0⟩

/-- Fixture product table. -/
def productsW : List Product := [prodW1, prodW2, prodW3]

/-- An empty database snapshot. -/
def dbEmptyW : DB := ⟨[], [], [], [], 1, 1⟩

/-- Identity tokenizer: each text is its own single lexeme. -/
def tvId : TSLang → String → List String := fun _ s => [s]

/-! ## C8 — invalid price range fails early -/

/-- C8: when both price bounds are supplied and `min_price > max_price`, the
listing fails with HTTP 400 and executes no SQL statement (the guard raises
before the filter list is built and before any query runs). -/
theorem C8_bad_range_fails_without_query (sem : SearchSem) (products : List Product)
    (p : ListingParams) (mn mx : ℚ)
    (hmn : p.min_price = some mn) (hmx : p.max_price = some mx) (hlt : mx < mn) :
    get_all_products sem products p =
      (.error ⟨400, "min_price не может быть больше max_price"⟩, 0) := by
  have hb : badPriceRange p = true := by
    unfold badPriceRange
    rw [hmn, hmx]
    simpa using hlt
  rw [get_all_products, if_pos hb]

/-- Witness for C8 at `min_price = 100`, `max_price = 50`. -/
theorem C8_witness :
    get_all_products semW productsW ⟨1, 20, none, some 100, some 50, none, none, none⟩ =
      (.error ⟨400, "min_price не может быть больше max_price"⟩, 0) :=
  C8_bad_range_fails_without_query semW productsW
    ⟨1, 20, none, some 100, some 50, none, none, none⟩ 100 50 rfl rfl (by decide)

/-! ## C7 — status code of the category existence check -/

/-- C7: the claim says a missing or inactive category yields HTTP 404 like
the other missing/inactive entities; the code raises HTTP 400 from
`check_category_id` (while the product check does use 404), so the
products-by-category listing reports 400 on a missing category. -/
theorem C7_category_check_uses_400 :
    get_products_by_category 1 dbEmptyW =
      .error ⟨400, "Category not found or inactive"⟩
    ∧ check_category_id 1 dbEmptyW = .error ⟨400, "Category not found or inactive"⟩
    ∧ check_product_id 1 dbEmptyW = .error ⟨404, "Product not found or inactive"⟩
    ∧ (400 : Nat) ≠ 404 :=
  ⟨rfl, rfl, rfl, by decide⟩

/-! ## C6 — content of the generated search vector -/

/-- C6: the claim says the vector combines English and Russian lexical forms
of both name and description; the computed column applies the English
configuration to `name` twice and never to `description`, so the English
lexical form of the description is absent (name is still weighted A above
the description's B). -/
theorem C6_tsv_misses_english_description :
    product_tsv tvId (some "name") (some "descr")
      = [((.english, "name"), .A), ((.russian, "name"), .A),
         ((.english, "name"), .A), ((.russian, "descr"), .B)]
    ∧ (∀ w, ((TSLang.english, "descr"), w) ∉ product_tsv tvId (some "name") (some "descr"))
    ∧ ((TSLang.english, "descr"), TSWeight.B)
        ∈ product_tsv_spec tvId (some "name") (some "descr")
    ∧ product_tsv tvId (some "name") (some "descr")
        ≠ product_tsv_spec tvId (some "name") (some "descr") := by
  refine ⟨rfl, ?_, by decide, by decide⟩
  intro w
  cases w <;> decide

/-! ## C1 — the count query shares the page query's predicate set -/

/-- The final predicate set of the page query: the scalar filters plus, when
search text is effective, the text-search predicate (the count statement is
rebuilt from this same list at line 72 of the handler). -/
def fullFilters (sem : SearchSem) (p : ListingParams) : List (Product → Bool) :=
  buildFilters p ++
    (match effectiveSearch p.search with
     | some v => [searchFilter sem v]
     | none => [])

/-- Shared helper: on the success path the returned `total` is the number of
rows satisfying the full predicate set. -/
theorem get_all_products_ok_total (sem : SearchSem) (products : List Product)
    (p : ListingParams) (resp : ProductListResp) (n : Nat)
    (h : get_all_products sem products p = (.ok resp, n)) :
    resp.total = (products.filter (satisfiesAll (fullFilters sem p))).length := by
  by_cases hb : badPriceRange p
  · rw [get_all_products, if_pos hb] at h
    simp at h
  · rw [get_all_products, if_neg hb] at h
    unfold fullFilters
    cases hs : effectiveSearch p.search with
    | none =>
      rw [hs] at h
      injection h with h1 h2
      injection h1 with h1
      subst h1
      simp
    | some v =>
      rw [hs] at h
      injection h with h1 h2
      injection h1 with h1
      subst h1
      rfl

/-- C1: for every combination of the optional listing parameters, the
returned `total` is the number of active products satisfying exactly the
page query's predicate set (search predicate included when effective), and
is independent of `page` and `page_size`. -/
theorem C1_total_matches_filterset (sem : SearchSem) (products : List Product)
    (p : ListingParams) (resp : ProductListResp) (n : Nat)
    (h : get_all_products sem products p = (.ok resp, n)) :
    resp.total = (products.filter (satisfiesAll (fullFilters sem p))).length
    ∧ ∀ pg ps resp2 n2,
        get_all_products sem products { p with page := pg, page_size := ps }
          = (.ok resp2, n2) →
        resp2.total = resp.total := by
  have h1 := get_all_products_ok_total sem products p resp n h
  refine ⟨h1, ?_⟩
  intro pg ps resp2 n2 h2
  have h3 := get_all_products_ok_total sem products _ resp2 n2 h2
  rw [h1, h3]
  rfl

/-- Listing request fixture: category filter plus search text. -/
def pW1 : ListingParams := ⟨1, 20, some 1, none, none, none, none, some "apple"⟩

/-- The response the handler returns on `productsW` for `pW1`. -/
def respW1 : ProductListResp := ⟨[prodW1], some [1], 1, 1, 20⟩

/-- Witness for C1 on the concrete fixture. -/
theorem C1_witness :
    respW1.total = (productsW.filter (satisfiesAll (fullFilters semW pW1))).length
    ∧ ∀ pg ps resp2 n2,
        get_all_products semW productsW { pW1 with page := pg, page_size := ps }
          = (.ok resp2, n2) →
        resp2.total = respW1.total :=
  C1_total_matches_filterset semW productsW pW1 respW1 2 (by rfl)

/-! ## C4 — shape of `ranks`, and empty search results -/

/-- Listing request fixture with no search text. -/
def pW4 : ListingParams := ⟨1, 20, none, none, none, none, none, none⟩

/-- The response the handler returns on `productsW` for `pW4`. -/
def respW4 : ProductListResp := ⟨[prodW1, prodW2], some [], 2, 1, 20⟩

/-- C4 counterexample: on a request with no search text the handler returns
`ranks = []` (the handler initialises `ranks = []` and always places it in
the response), not `null`/absent as the claim states. -/
theorem C4_counterexample_ranks_not_null :
    get_all_products semW productsW pW4 = (.ok respW4, 2)
    ∧ respW4.ranks ≠ none :=
  ⟨by rfl, by decide⟩

/-- C4 (amended): with no effective search text `ranks` is the empty array
(not null); with effective search text `ranks` is an array of the same
length as `items`; and a search matching nothing yields `items = []` and
`total = 0`. -/
theorem C4_ranks_shape (sem : SearchSem) (products : List Product)
    (p : ListingParams) (resp : ProductListResp) (n : Nat)
    (h : get_all_products sem products p = (.ok resp, n)) :
    (effectiveSearch p.search = none → resp.ranks = some [])
    ∧ (∀ v, effectiveSearch p.search = some v →
        ∃ rs, resp.ranks = some rs ∧ rs.length = resp.items.length)
    ∧ (∀ v, effectiveSearch p.search = some v →
        products.filter (satisfiesAll (buildFilters p ++ [searchFilter sem v])) = [] →
        resp.items = [] ∧ resp.total = 0) := by
  by_cases hb : badPriceRange p
  · rw [get_all_products, if_pos hb] at h
    simp at h
  · rw [get_all_products, if_neg hb] at h
    cases hs : effectiveSearch p.search with
    | none =>
      rw [hs] at h
      injection h with h1 h2
      injection h1 with h1
      subst h1
      refine ⟨fun _ => rfl, ?_, ?_⟩
      · intro v hv
        cases hv
      · intro v hv
        cases hv
    | some v0 =>
      rw [hs] at h
      injection h with h1 h2
      injection h1 with h1
      subst h1
      refine ⟨?_, ?_, ?_⟩
      · intro hnone
        cases hnone
      · intro v hv
        injection hv with hv
        subst hv
        exact ⟨_, rfl, by simp⟩
      · intro v hv hempty
        injection hv with hv
        subst hv
        rw [hempty]
        simp

/-- Witness for the amended C4 on the concrete no-search fixture. -/
theorem C4_witness :
    (effectiveSearch pW4.search = none → respW4.ranks = some [])
    ∧ (∀ v, effectiveSearch pW4.search = some v →
        ∃ rs, respW4.ranks = some rs ∧ rs.length = respW4.items.length)
    ∧ (∀ v, effectiveSearch pW4.search = some v →
        productsW.filter (satisfiesAll (buildFilters pW4 ++ [searchFilter semW v])) = [] →
        respW4.items = [] ∧ respW4.total = 0) :=
  C4_ranks_shape semW productsW pW4 respW4 2 (by rfl)

/-! ## C5 — search matching, ranking and ordering -/

/-- `ORDER BY rank DESC, id` is transitive. -/
theorem rankOrder_trans (sem : SearchSem) (v : String) (a b c : Product)
    (hab : rankOrder sem v a b) (hbc : rankOrder sem v b c) : rankOrder sem v a c := by
  rcases hab with h1 | ⟨h1, h1'⟩ <;> rcases hbc with h2 | ⟨h2, h2'⟩
  · exact Or.inl (lt_trans h2 h1)
  · exact Or.inl (h2 ▸ h1)
  · exact Or.inl (by rw [h1]; exact h2)
  · exact Or.inr ⟨h1.trans h2, le_trans h1' h2'⟩

/-- `ORDER BY rank DESC, id` is total. -/
theorem rankOrder_total (sem : SearchSem) (v : String) (a b : Product) :
    rankOrder sem v a b ∨ rankOrder sem v b a := by
  rcases lt_trichotomy (rankOf sem v b) (rankOf sem v a) with h | h | h
  · exact Or.inl (Or.inl h)
  · rcases Nat.le_total a.id b.id with hid | hid
    · exact Or.inl (Or.inr ⟨h.symm, hid⟩)
    · exact Or.inr (Or.inr ⟨h, hid⟩)
  · exact Or.inr (Or.inl h)

instance (sem : SearchSem) (v : String) : IsTrans Product (rankOrder sem v) :=
  ⟨rankOrder_trans sem v⟩

instance (sem : SearchSem) (v : String) : IsTotal Product (rankOrder sem v) :=
  ⟨rankOrder_total sem v⟩

instance : IsTrans Product idOrder :=
  ⟨fun _ _ _ => Nat.le_trans⟩

instance : IsTotal Product idOrder :=
  ⟨fun a b => Nat.le_total a.id b.id⟩

/-- Conjunction of an appended predicate list splits. -/
theorem satisfiesAll_append (fs gs : List (Product → Bool)) (pr : Product) :
    satisfiesAll (fs ++ gs) pr = (satisfiesAll fs pr && satisfiesAll gs pr) := by
  simp [satisfiesAll]

/-- The singleton search predicate is the two-language OR. -/
theorem satisfiesAll_single_search (sem : SearchSem) (v : String) (pr : Product) :
    satisfiesAll [searchFilter sem v] pr
      = (sem.tsMatch .english v pr || sem.tsMatch .russian v pr) := by
  simp [satisfiesAll, searchFilter]

/-- An OFFSET/LIMIT page is a sublist of the full ordered result. -/
theorem page_slice_sublist (l : List Product) (off k : Nat) :
    ((l.drop off).take k).Sublist l :=
  (List.take_sublist _ _).trans (List.drop_sublist _ _)

/-- C5: with effective search text, a product is in the result set iff it
passes the scalar filters and its vector matches the English or the Russian
query; each returned rank is the greater of the two per-language scores; the
page is ordered by descending rank with ties broken by ascending id; with no
effective search text the page is ordered by ascending id. -/
theorem C5_search_ranking (sem : SearchSem) (products : List Product)
    (p : ListingParams) (resp : ProductListResp) (n : Nat)
    (h : get_all_products sem products p = (.ok resp, n)) :
    (∀ v, effectiveSearch p.search = some v →
      (∀ pr ∈ resp.items,
          satisfiesAll (buildFilters p) pr = true
          ∧ (sem.tsMatch .english v pr = true ∨ sem.tsMatch .russian v pr = true))
      ∧ resp.ranks = some (resp.items.map (fun pr =>
          max (sem.tsRankCd .english v pr) (sem.tsRankCd .russian v pr)))
      ∧ resp.items.Pairwise (rankOrder sem v)
      ∧ (∀ pr,
          pr ∈ products.filter (satisfiesAll (buildFilters p ++ [searchFilter sem v]))
          ↔ pr ∈ products ∧ satisfiesAll (buildFilters p) pr = true
              ∧ (sem.tsMatch .english v pr = true ∨ sem.tsMatch .russian v pr = true)))
    ∧ (effectiveSearch p.search = none → resp.items.Pairwise idOrder) := by
  by_cases hb : badPriceRange p
  · rw [get_all_products, if_pos hb] at h
    simp at h
  · rw [get_all_products, if_neg hb] at h
    cases hs : effectiveSearch p.search with
    | none =>
      rw [hs] at h
      injection h with h1 h2
      injection h1 with h1
      subst h1
      refine ⟨(fun v hv => by cases hv), (fun _ => ?_)⟩
      exact List.Pairwise.sublist (page_slice_sublist _ _ _)
        (List.sorted_insertionSort idOrder _)
    | some v0 =>
      rw [hs] at h
      injection h with h1 h2
      injection h1 with h1
      subst h1
      refine ⟨?_, (fun hnone => by cases hnone)⟩
      intro v hv
      injection hv with hv
      subst hv
      refine ⟨?_, rfl, ?_, ?_⟩
      · intro pr hpr
        have hmem : pr ∈ products.filter
            (satisfiesAll (buildFilters p ++ [searchFilter sem v0])) :=
          ((List.perm_insertionSort _ _).mem_iff).mp
            ((page_slice_sublist _ _ _).subset hpr)
        have h3 := (List.mem_filter.mp hmem).2
        rw [satisfiesAll_append, Bool.and_eq_true] at h3
        refine ⟨h3.1, ?_⟩
        have h4 := h3.2
        rw [satisfiesAll_single_search, Bool.or_eq_true] at h4
        exact h4
      · exact List.Pairwise.sublist (page_slice_sublist _ _ _)
          (List.sorted_insertionSort (rankOrder sem v0) _)
      · intro pr
        rw [List.mem_filter, satisfiesAll_append, Bool.and_eq_true,
            satisfiesAll_single_search, Bool.or_eq_true]

/-- Witness for C5 on the concrete search fixture. -/
theorem C5_witness :
    (∀ v, effectiveSearch pW1.search = some v →
      (∀ pr ∈ respW1.items,
          satisfiesAll (buildFilters pW1) pr = true
          ∧ (semW.tsMatch .english v pr = true ∨ semW.tsMatch .russian v pr = true))
      ∧ respW1.ranks = some (respW1.items.map (fun pr =>
          max (semW.tsRankCd .english v pr) (semW.tsRankCd .russian v pr)))
      ∧ respW1.items.Pairwise (rankOrder semW v)
      ∧ (∀ pr,
          pr ∈ productsW.filter (satisfiesAll (buildFilters pW1 ++ [searchFilter semW v]))
          ↔ pr ∈ productsW ∧ satisfiesAll (buildFilters pW1) pr = true
              ∧ (semW.tsMatch .english v pr = true ∨ semW.tsMatch .russian v pr = true)))
    ∧ (effectiveSearch pW1.search = none → respW1.items.Pairwise idOrder) :=
  C5_search_ranking semW productsW pW1 respW1 2 (by rfl)

/-! ## C3 — rating recomputation on review mutations -/

/-- Scenario product: id 7, active, rating initially 0. -/
def prodS : Product := ⟨7, "prod", none, some 10, 1, true, 1, 1, 0⟩

/-- Scenario start: one product, no reviews. -/
def dbS0 : DB := ⟨[prodS], [], [], [], 1, 1⟩

/-- The review created with grade 3. -/
def revS1 : Review := ⟨1, 1, 7, none, 3, true⟩

/-- The review created with grade 5. -/
def revS2 : Review := ⟨2, 1, 7, none, 5, true⟩

/-- State after creating the grade-3 review: rating 3. -/
def dbS1 : DB := ⟨[⟨7, "prod", none, some 10, 1, true, 1, 1, 3⟩], [], [revS1], [], 2, 1⟩

/-- State after also creating the grade-5 review: rating 4. -/
def dbS2 : DB :=
  ⟨[⟨7, "prod", none, some 10, 1, true, 1, 1, 4⟩], [], [revS1, revS2], [], 3, 1⟩

/-- State after soft-deleting the grade-3 review: rating 5. -/
def dbS3 : DB :=
  ⟨[⟨7, "prod", none, some 10, 1, true, 1, 1, 5⟩], [],
   [⟨1, 1, 7, none, 3, false⟩, revS2], [], 3, 1⟩

/-- State after soft-deleting both reviews: rating 0. -/
def dbS4 : DB :=
  ⟨[⟨7, "prod", none, some 10, 1, true, 1, 1, 0⟩], [],
   [⟨1, 1, 7, none, 3, false⟩, ⟨2, 1, 7, none, 5, false⟩], [], 3, 1⟩

/-- A successful product check is a successful lookup. -/
theorem check_product_id_ok (product_id : Nat) (db : DB) (q : Product)
    (h : check_product_id product_id db = .ok q) :
    db.products.find? (fun p => p.id == product_id && p.is_active) = some q := by
  unfold check_product_id at h
  split at h
  · rename_i p heq
    injection h with h
    rw [← h]
    exact heq
  · cases h

/-- A successful review check is a successful lookup. -/
theorem check_review_id_ok (review_id : Nat) (db : DB) (q : Review)
    (h : check_review_id review_id db = .ok q) :
    db.reviews.find?
      (fun r => r.id == review_id && r.is_active && productActive db r.product_id)
      = some q := by
  unfold check_review_id at h
  split at h
  · rename_i r heq
    injection h with h
    rw [← h]
    exact heq
  · cases h

/-- First component of a true Boolean conjunction. -/
theorem and_true_left {a b : Bool} (h : (a && b) = true) : a = true :=
  (Bool.and_eq_true a b ▸ h).1

/-- Second component of a true Boolean conjunction. -/
theorem and_true_right {a b : Bool} (h : (a && b) = true) : b = true :=
  (Bool.and_eq_true a b ▸ h).2

/-- Head satisfies the predicate: `find?` returns it. -/
theorem find?_cons_true {α : Type} (p : α → Bool) (a : α) (l : List α)
    (h : p a = true) : (a :: l).find? p = some a := by
  simp [List.find?, h]

/-- Head fails the predicate: `find?` skips it. -/
theorem find?_cons_false {α : Type} (p : α → Bool) (a : α) (l : List α)
    (h : p a = false) : (a :: l).find? p = l.find? p := by
  simp [List.find?, h]

/-- If a product passes the active lookup, the plain lookup by id succeeds. -/
theorem find?_id_isSome_of_active (l : List Product) (product_id : Nat) (q : Product)
    (h : l.find? (fun p => p.id == product_id && p.is_active) = some q) :
    (l.find? (fun p => p.id == product_id)).isSome = true := by
  induction l with
  | nil => cases h
  | cons a t ih =>
    by_cases hw : (a.id == product_id) = true
    · rw [find?_cons_true (fun p => p.id == product_id) a t hw]
      rfl
    · have hw0 : (a.id == product_id) = false := by simpa using hw
      rw [find?_cons_false (fun p => p.id == product_id) a t hw0]
      rw [find?_cons_false (fun p => p.id == product_id && p.is_active) a t
        (by simp [hw0])] at h
      exact ih h

/-- If some row with the id is active, the plain lookup by id succeeds. -/
theorem find?_id_isSome_of_any (l : List Product) (product_id : Nat)
    (h : l.any (fun p => p.id == product_id && p.is_active) = true) :
    (l.find? (fun p => p.id == product_id)).isSome = true := by
  induction l with
  | nil => simp at h
  | cons a t ih =>
    by_cases hw : (a.id == product_id) = true
    · rw [find?_cons_true (fun p => p.id == product_id) a t hw]
      rfl
    · have hw0 : (a.id == product_id) = false := by simpa using hw
      rw [find?_cons_false (fun p => p.id == product_id) a t hw0]
      rw [List.any_cons] at h
      have ha : (a.id == product_id && a.is_active) = false := by simp [hw0]
      rw [ha] at h
      exact ih (by simpa using h)

/-- Writing a value into the `raiting` column of every row with the id makes
the stored value of the first row with the id that value. -/
theorem find?_map_raiting (ps : List Product) (product_id : Nat) (v : ℚ)
    (hex : (ps.find? (fun p => p.id == product_id)).isSome = true) :
    ((ps.map (fun p => if p.id == product_id then { p with raiting := v } else p)).find?
        (fun p => p.id == product_id)).map Product.raiting = some v := by
  induction ps with
  | nil => simp at hex
  | cons a t ih =>
    by_cases ha : (a.id == product_id) = true
    · rw [List.map_cons, if_pos ha]
      simp [List.find?, ha]
    · have ha0 : (a.id == product_id) = false := by simpa using ha
      rw [List.map_cons, if_neg ha]
      rw [find?_cons_false (fun p : Product => p.id == product_id) _ _ ha0]
      rw [find?_cons_false (fun p : Product => p.id == product_id) _ _ ha0] at hex
      exact ih hex

/-- After `update_product_grade` the stored rating of the product is the
mean grade of its active reviews in the resulting state. -/
theorem storedRaiting_update (product_id : Nat) (db : DB)
    (hex : (db.products.find? (fun p => p.id == product_id)).isSome = true) :
    storedRaiting product_id (update_product_grade product_id db)
      = some (meanActiveGrade product_id (update_product_grade product_id db)) :=
  find?_map_raiting db.products product_id (meanActiveGrade product_id db) hex

/-- C3: after every successful review create, edit and soft-delete, the
referenced product's stored rating equals the arithmetic mean of `grade`
over that product's active reviews (0 when there are none); the grade
scenario [3,5] → 4, soft-delete of the 3 → 5, soft-delete of all → 0 is run
on the concrete fixture below. -/
theorem C3_rating_recompute (user_id review_id : Nat) (rc : ReviewCreate)
    (ru : ReviewUpdate) (db : DB) :
    (∀ r db1, create_review user_id rc db = .ok (r, db1) →
        storedRaiting rc.product_id db1 = some (meanActiveGrade rc.product_id db1))
    ∧ (∀ rev db1, check_review_id review_id db = .ok rev →
        update_review user_id review_id ru db = .ok db1 →
        storedRaiting rev.product_id db1 = some (meanActiveGrade rev.product_id db1))
    ∧ (∀ rev db1, check_review_id review_id db = .ok rev →
        delete_review review_id db = .ok db1 →
        storedRaiting rev.product_id db1 = some (meanActiveGrade rev.product_id db1))
    ∧ (create_review 1 ⟨7, none, 3⟩ dbS0 = .ok (revS1, dbS1)
       ∧ create_review 1 ⟨7, none, 5⟩ dbS1 = .ok (revS2, dbS2)
       ∧ storedRaiting 7 dbS2 = some 4
       ∧ delete_review 1 dbS2 = .ok dbS3
       ∧ storedRaiting 7 dbS3 = some 5
       ∧ delete_review 2 dbS3 = .ok dbS4
       ∧ storedRaiting 7 dbS4 = some 0) := by
  refine ⟨?_, ?_, ?_, ?_⟩
  · intro r db1 hc
    unfold create_review at hc
    split at hc
    · cases hc
    · rename_i product_db heq
      injection hc with hc
      injection hc with hc1 hc2
      subst hc2
      have hfind := check_product_id_ok rc.product_id db product_db heq
      have hpred := List.find?_some hfind
      simp only [Bool.and_eq_true] at hpred
      have hid : (product_db.id == rc.product_id) = true := hpred.1
      have hid2 : product_db.id = rc.product_id := by simpa using hid
      rw [← hid2]
      exact storedRaiting_update product_db.id _
        (by rw [hid2]
            exact find?_id_isSome_of_active db.products rc.product_id product_db hfind)
  · intro rev db1 hcheck hu
    unfold update_review at hu
    split at hu
    · cases hu
    · rename_i review_db heq
      rw [hcheck] at heq
      injection heq with heq
      subst heq
      split at hu
      · cases hu
      · injection hu with hu
        subst hu
        have hfind := check_review_id_ok review_id db rev hcheck
        have hpred := List.find?_some hfind
        simp only [Bool.and_eq_true] at hpred
        have hpa : productActive db rev.product_id = true := hpred.2
        exact storedRaiting_update rev.product_id _
          (find?_id_isSome_of_any db.products rev.product_id hpa)
  · intro rev db1 hcheck hd
    unfold delete_review at hd
    split at hd
    · cases hd
    · rename_i review_db heq
      rw [hcheck] at heq
      injection heq with heq
      subst heq
      injection hd with hd
      subst hd
      have hfind := check_review_id_ok review_id db rev hcheck
      have hpred := List.find?_some hfind
      simp only [Bool.and_eq_true] at hpred
      have hpa : productActive db rev.product_id = true := hpred.2
      exact storedRaiting_update rev.product_id _
        (find?_id_isSome_of_any db.products rev.product_id hpa)
  · refine ⟨?_, ?_, ?_, ?_, ?_, ?_, ?_⟩
    · norm_num [create_review, check_product_id, update_product_grade, activeReviews,
        dbS0, dbS1, prodS, revS1]
    · norm_num [create_review, check_product_id, update_product_grade, activeReviews,
        dbS1, dbS2, prodS, revS1, revS2]
    · norm_num [storedRaiting, dbS2]
    · norm_num [delete_review, check_review_id, productActive, update_product_grade,
        activeReviews, dbS2, dbS3, revS1, revS2]
    · norm_num [storedRaiting, dbS3]
    · norm_num [delete_review, check_review_id, productActive, update_product_grade,
        activeReviews, dbS3, dbS4, revS2]
    · norm_num [storedRaiting, dbS4]

/-- Witness for C3: the soft-delete branch applied at the concrete scenario
state in which the last review is removed. -/
theorem C3_witness :
    storedRaiting revS2.product_id dbS4 = some (meanActiveGrade revS2.product_id dbS4) :=
  ((C3_rating_recompute 1 2 ⟨7, none, 3⟩ ⟨none, 3⟩ dbS3).2.2.1) revS2 dbS4 (by rfl) (by rfl)

/-! ## C10 — gating of the admin soft delete -/

/-- When every review row with the id is inactive, the delete 404s. -/
theorem delete_review_notfound_of_inactive (review_id : Nat) (dbx : DB)
    (hall : ∀ r ∈ dbx.reviews, (r.id == review_id && r.is_active) = false) :
    delete_review review_id dbx = .error ⟨404, "Review not found"⟩ := by
  unfold delete_review check_review_id
  have hfn : dbx.reviews.find?
      (fun r => r.id == review_id && r.is_active && productActive dbx r.product_id)
      = none := by
    rw [List.find?_eq_none]
    intro r hr hpred
    have hfalse := hall r hr
    simp only [Bool.and_eq_true] at hpred
    rw [hpred.1.1, hpred.1.2] at hfalse
    simp at hfalse
  rw [hfn]

/-- C10: the admin soft delete requires an active review of an active
product (else 404), a success implies both were active, and deleting the
same review a second time fails with 404 — the delete is not idempotent. -/
theorem C10_delete_gating (review_id : Nat) (db : DB) :
    (db.reviews.find?
        (fun r => r.id == review_id && r.is_active && productActive db r.product_id)
        = none →
      delete_review review_id db = .error ⟨404, "Review not found"⟩)
    ∧ (∀ db1, delete_review review_id db = .ok db1 →
        ∃ rev, rev ∈ db.reviews ∧ rev.id = review_id ∧ rev.is_active = true
          ∧ productActive db rev.product_id = true)
    ∧ (∀ db1, delete_review review_id db = .ok db1 →
        delete_review review_id db1 = .error ⟨404, "Review not found"⟩) := by
  refine ⟨?_, ?_, ?_⟩
  · intro hfind
    unfold delete_review check_review_id
    rw [hfind]
  · intro db1 hd
    unfold delete_review at hd
    split at hd
    · cases hd
    · rename_i review_db heq
      have hfind := check_review_id_ok review_id db review_db heq
      have hpred := List.find?_some hfind
      simp only [Bool.and_eq_true] at hpred
      exact ⟨review_db, List.mem_of_find?_eq_some hfind, by simpa using hpred.1.1,
        hpred.1.2, hpred.2⟩
  · intro db1 hd
    unfold delete_review at hd
    split at hd
    · cases hd
    · rename_i review_db heq
      injection hd with hd
      subst hd
      apply delete_review_notfound_of_inactive
      intro r' hr'
      have hr'' : r' ∈ db.reviews.map
          (fun r => if r.id == review_id then { r with is_active := false } else r) := hr'
      obtain ⟨r, hrmem, hmap⟩ := List.mem_map.mp hr''
      by_cases hid : (r.id == review_id) = true
      · rw [if_pos hid] at hmap
        rw [← hmap]
        simp
      · rw [if_neg hid] at hmap
        rw [← hmap]
        simp [hid]

/-- Witness for C10: deleting a review that does not exist 404s. -/
theorem C10_witness :
    delete_review 1 dbEmptyW = .error ⟨404, "Review not found"⟩ :=
  (C10_delete_gating 1 dbEmptyW).1 rfl

/-! ## C2 — one cart row per (user, product), quantities merge -/

/-- Cart state once the fresh row of the (user, product) pair carries the
accumulated quantity `q`. -/
def cartShape (user_id product_id : Nat) (db : DB) (q : Nat) : DB :=
  { db with
    cart_items := db.cart_items ++ [⟨db.next_cart_item_id, user_id, product_id, q⟩]
    next_cart_item_id := db.next_cart_item_id + 1 }

/-- `find?` skips a prefix in which nothing matches. -/
theorem find?_append_none {α : Type} (p : α → Bool) (l1 l2 : List α)
    (h : l1.find? p = none) : (l1 ++ l2).find? p = l2.find? p := by
  induction l1 with
  | nil => rfl
  | cons a t ih =>
    rw [List.find?_eq_none] at h
    have ha : p a = false := by
      have := h a (by simp)
      simpa using this
    rw [List.cons_append, find?_cons_false p _ _ ha]
    apply ih
    rw [List.find?_eq_none]
    intro x hx
    exact h x (by simp [hx])

/-- Mapping a function that fixes every element of a list is the identity. -/
theorem map_id_of {α : Type} (f : α → α) (l : List α) (h : ∀ x ∈ l, f x = x) :
    l.map f = l := by
  induction l with
  | nil => rfl
  | cons a t ih =>
    rw [List.map_cons, h a (by simp), ih (fun x hx => h x (by simp [hx]))]

/-- The in-place quantity increment touches only the row of the pair: the
pre-existing rows have smaller ids than the fresh row's. -/
theorem shape_increment (user_id product_id q Q : Nat) (db : DB)
    (hfresh : ∀ it ∈ db.cart_items, it.id < db.next_cart_item_id) :
    (db.cart_items ++ [(⟨db.next_cart_item_id, user_id, product_id, Q⟩ : CartItem)]).map
        (fun it : CartItem => if it.id == db.next_cart_item_id then
            { it with quantity := it.quantity + q } else it)
      = db.cart_items ++ [⟨db.next_cart_item_id, user_id, product_id, Q + q⟩] := by
  rw [List.map_append]
  congr 1
  · apply map_id_of
    intro x hx
    have hne : (x.id == db.next_cart_item_id) = false := by
      simp [Nat.ne_of_lt (hfresh x hx)]
    simp [hne]
  · simp

/-- The first successful `add` of the pair inserts a fresh row. -/
theorem add_first (user_id product_id q : Nat) (db : DB)
    (hprod : (db.products.find? (fun p => p.id == product_id && p.is_active)).isSome
      = true)
    (hnone : ∀ it ∈ db.cart_items,
        (it.user_id == user_id && it.product_id == product_id) = false) :
    ∃ x, add_item_to_cart user_id ⟨product_id, q⟩ db
      = .ok (x, cartShape user_id product_id db q) := by
  obtain ⟨pr, hp⟩ := Option.isSome_iff_exists.mp hprod
  have hchk : check_product_id product_id db = .ok pr := by
    unfold check_product_id
    rw [hp]
  have hnc : get_cart_item user_id product_id db = none := by
    unfold get_cart_item
    rw [List.find?_eq_none]
    intro it hit hpred
    rw [hnone it hit] at hpred
    cases hpred
  unfold add_item_to_cart
  rw [hchk, hnc]
  exact ⟨_, rfl⟩

/-- Every later successful `add` of the pair merges into the existing row. -/
theorem add_next (user_id product_id q Q : Nat) (db : DB)
    (hprod : (db.products.find? (fun p => p.id == product_id && p.is_active)).isSome
      = true)
    (hfresh : ∀ it ∈ db.cart_items, it.id < db.next_cart_item_id)
    (hnone : ∀ it ∈ db.cart_items,
        (it.user_id == user_id && it.product_id == product_id) = false) :
    ∃ x, add_item_to_cart user_id ⟨product_id, q⟩ (cartShape user_id product_id db Q)
      = .ok (x, cartShape user_id product_id db (Q + q)) := by
  obtain ⟨pr, hp⟩ := Option.isSome_iff_exists.mp hprod
  have hchk : check_product_id product_id (cartShape user_id product_id db Q)
      = .ok pr := by
    unfold check_product_id cartShape
    dsimp only
    rw [hp]
  have hrow : get_cart_item user_id product_id (cartShape user_id product_id db Q)
      = some ⟨db.next_cart_item_id, user_id, product_id, Q⟩ := by
    unfold get_cart_item cartShape
    dsimp only
    rw [find?_append_none _ _ _ ?side]
    case side =>
      rw [List.find?_eq_none]
      intro it hit hpred
      rw [hnone it hit] at hpred
      cases hpred
    simp [List.find?]
  unfold add_item_to_cart
  rw [hchk, hrow]
  unfold cartShape
  dsimp only
  rw [shape_increment user_id product_id q Q db hfresh]
  exact ⟨_, rfl⟩

/-- Folding successful adds over the single-row state accumulates the sum. -/
theorem addSeq_shape (user_id product_id : Nat) (db : DB) (qs : List Nat) (Q : Nat)
    (hprod : (db.products.find? (fun p => p.id == product_id && p.is_active)).isSome
      = true)
    (hfresh : ∀ it ∈ db.cart_items, it.id < db.next_cart_item_id)
    (hnone : ∀ it ∈ db.cart_items,
        (it.user_id == user_id && it.product_id == product_id) = false) :
    addSeq user_id product_id qs (cartShape user_id product_id db Q)
      = .ok (cartShape user_id product_id db (Q + qs.sum)) := by
  induction qs generalizing Q with
  | nil =>
    rw [addSeq]
    simp
  | cons q rest ih =>
    rw [addSeq]
    obtain ⟨x, hx⟩ := add_next user_id product_id q Q db hprod hfresh hnone
    rw [hx]
    show addSeq user_id product_id rest (cartShape user_id product_id db (Q + q))
        = .ok (cartShape user_id product_id db (Q + (q :: rest).sum))
    rw [ih (Q + q), List.sum_cons, Nat.add_assoc]

/-- C2: starting from a cart with no row of the (user, product) pair, after
any nonempty sequence of successful `add` calls (each quantity ≥ 1, product
active) exactly one CartItem row of the pair exists and its quantity is the
sum of all added quantities — the merge is find-then-increment, never a
second insert. -/
theorem C2_cart_merge (user_id product_id : Nat) (qs : List Nat) (db db1 : DB)
    (hprod : (db.products.find? (fun p => p.id == product_id && p.is_active)).isSome
      = true)
    (hfresh : ∀ it ∈ db.cart_items, it.id < db.next_cart_item_id)
    (hnone : ∀ it ∈ db.cart_items,
        (it.user_id == user_id && it.product_id == product_id) = false)
    (hne : qs ≠ [])
    (hpos : ∀ q ∈ qs, 1 ≤ q)
    (h : addSeq user_id product_id qs db = .ok db1) :
    db1.cart_items.filter
        (fun it => it.user_id == user_id && it.product_id == product_id)
      = [⟨db.next_cart_item_id, user_id, product_id, qs.sum⟩] := by
  cases qs with
  | nil => exact absurd rfl hne
  | cons q rest =>
    rw [addSeq] at h
    obtain ⟨x, hx⟩ := add_first user_id product_id q db hprod hnone
    rw [hx] at h
    have h2 : addSeq user_id product_id rest (cartShape user_id product_id db q)
        = .ok db1 := h
    rw [addSeq_shape user_id product_id db rest q hprod hfresh hnone] at h2
    injection h2 with h2
    rw [← h2]
    unfold cartShape
    dsimp only
    rw [List.filter_append]
    have hnil : db.cart_items.filter
        (fun it => it.user_id == user_id && it.product_id == product_id) = [] := by
      rw [List.filter_eq_nil_iff]
      intro it hit
      simp [hnone it hit]
    rw [hnil]
    simp

/-- Start state of the C2 witness: product 7 active, empty cart. -/
def dbC2 : DB := ⟨[prodS], [], [], [], 1, 1⟩

/-- End state of the C2 witness after adding quantities 2 and 3. -/
def dbC2done : DB := ⟨[prodS], [], [], [⟨1, 1, 7, 5⟩], 1, 2⟩

/-- Witness for C2: `add(qty=2)` then `add(qty=3)` leaves one row, qty 5. -/
theorem C2_witness :
    dbC2done.cart_items.filter
        (fun it => it.user_id == 1 && it.product_id == 7)
      = [⟨dbC2.next_cart_item_id, 1, 7, [2, 3].sum⟩] :=
  C2_cart_merge 1 7 [2, 3] dbC2 dbC2done (by decide) (by decide) (by decide)
    (by decide) (by decide) (by rfl)

/-! ## C9 — viewing the cart -/

instance : IsTrans CartItem (fun a b => a.id ≤ b.id) :=
  ⟨fun _ _ _ => Nat.le_trans⟩

instance : IsTotal CartItem (fun a b => a.id ≤ b.id) :=
  ⟨fun a b => Nat.le_total a.id b.id⟩

/-- The handler's accumulation loop computes the sum. -/
theorem foldl_add_eq_sum {α M : Type} [AddCommMonoid M] (f : α → M) (l : List α)
    (init : M) :
    l.foldl (fun acc x => acc + f x) init = init + (l.map f).sum := by
  induction l generalizing init with
  | nil => simp
  | cons a t ih => simp [ih, add_assoc]

/-- When every row's product resolves, the join drops no row: projecting the
cart item out of the joined entries returns the rows themselves. -/
theorem filterMap_join_items (products : List Product) (rows : List CartItem)
    (hfk : ∀ it ∈ rows,
        (products.find? (fun p => p.id == it.product_id)).isSome = true) :
    (rows.filterMap (fun it => (products.find? (fun p => p.id == it.product_id)).map
        (fun p => CartEntry.mk it p))).map CartEntry.item = rows := by
  induction rows with
  | nil => rfl
  | cons a t ih =>
    obtain ⟨p, hp⟩ := Option.isSome_iff_exists.mp (hfk a (by simp))
    have hfa : (fun it : CartItem =>
        (products.find? (fun pr => pr.id == it.product_id)).map
          (fun pr => CartEntry.mk it pr)) a = some (CartEntry.mk a p) := by
      dsimp only
      rw [hp]
      rfl
    rw [@List.filterMap_cons_some CartItem CartEntry
        (fun it => (products.find? (fun pr => pr.id == it.product_id)).map
          (fun pr => CartEntry.mk it pr)) a t (CartEntry.mk a p) hfa,
      List.map_cons]
    dsimp only
    rw [ih (fun it hit => hfk it (by simp [hit]))]

/-- C9: the cart view returns the user's cart rows ordered by ascending row
id, each joined with its product row, and totals computed at read time:
`total_quantity` is the sum of quantities and `total_price` the sum of
quantity × unit price with a missing price counting as zero. -/
theorem C9_view_cart (user_id : Nat) (db : DB)
    (hfk : ∀ it ∈ db.cart_items,
        (db.products.find? (fun p => p.id == it.product_id)).isSome = true) :
    ((get_cart user_id db).items.map CartEntry.item).Perm
        (db.cart_items.filter (fun it => it.user_id == user_id))
    ∧ (get_cart user_id db).items.Pairwise (fun a b => a.item.id ≤ b.item.id)
    ∧ (∀ e ∈ (get_cart user_id db).items,
        db.products.find? (fun p => p.id == e.item.product_id) = some e.product)
    ∧ (get_cart user_id db).total_quantity
        = ((get_cart user_id db).items.map (fun e => e.item.quantity)).sum
    ∧ (get_cart user_id db).total_price
        = ((get_cart user_id db).items.map (fun e =>
            (e.item.quantity : ℚ) * (match e.product.price with
              | some x => x
              | none => 0))).sum := by
  have hrows_fk : ∀ it ∈ (db.cart_items.filter
        (fun it => it.user_id == user_id)).insertionSort (fun a b => a.id ≤ b.id),
      (db.products.find? (fun p => p.id == it.product_id)).isSome = true := by
    intro it hit
    have hmem : it ∈ db.cart_items.filter (fun it => it.user_id == user_id) :=
      ((List.perm_insertionSort _ _).mem_iff).mp hit
    exact hfk it (List.mem_filter.mp hmem).1
  have hitems : (get_cart user_id db).items
      = ((db.cart_items.filter (fun it => it.user_id == user_id)).insertionSort
          (fun a b => a.id ≤ b.id)).filterMap
        (fun it => (db.products.find? (fun p => p.id == it.product_id)).map
          (fun p => CartEntry.mk it p)) := rfl
  have hmap := filterMap_join_items db.products _ hrows_fk
  refine ⟨?_, ?_, ?_, ?_, ?_⟩
  · rw [hitems, hmap]
    exact List.perm_insertionSort _ _
  · have hs := List.sorted_insertionSort (fun a b : CartItem => a.id ≤ b.id)
        (db.cart_items.filter (fun it => it.user_id == user_id))
    rw [← hmap] at hs
    rw [hitems]
    exact (@List.pairwise_map CartEntry CartItem CartEntry.item
      (fun a b => a.id ≤ b.id) _).mp hs
  · intro e he
    rw [hitems] at he
    obtain ⟨it, hit, hfe⟩ := List.mem_filterMap.mp he
    obtain ⟨p, hp⟩ := Option.isSome_iff_exists.mp (hrows_fk it hit)
    rw [hp] at hfe
    simp only [Option.map_some'] at hfe
    injection hfe with hfe
    rw [← hfe]
    exact hp
  · have h4 := foldl_add_eq_sum (fun e : CartEntry => e.item.quantity)
        ((get_cart user_id db).items) 0
    rw [zero_add] at h4
    exact h4
  · have h5 := foldl_add_eq_sum (fun e : CartEntry =>
        (e.item.quantity : ℚ) * (match e.product.price with
          | some x => x
          | none => 0)) ((get_cart user_id db).items) 0
    rw [zero_add] at h5
    exact h5

/-- Fixture database for the C9 witness: two products, three cart rows, two
of them user 1's. -/
def dbC9 : DB :=
  ⟨[prodW1, prodW2], [], [], [⟨1, 1, 1, 2⟩, ⟨2, 1, 2, 3⟩, ⟨3, 2, 1, 1⟩], 1, 4⟩

/-- Witness for C9 on the concrete fixture. -/
theorem C9_witness :
    ((get_cart 1 dbC9).items.map CartEntry.item).Perm
        (dbC9.cart_items.filter (fun it => it.user_id == 1))
    ∧ (get_cart 1 dbC9).items.Pairwise (fun a b => a.item.id ≤ b.item.id)
    ∧ (∀ e ∈ (get_cart 1 dbC9).items,
        dbC9.products.find? (fun p => p.id == e.item.product_id) = some e.product)
    ∧ (get_cart 1 dbC9).total_quantity
        = ((get_cart 1 dbC9).items.map (fun e => e.item.quantity)).sum
    ∧ (get_cart 1 dbC9).total_price
        = ((get_cart 1 dbC9).items.map (fun e =>
            (e.item.quantity : ℚ) * (match e.product.price with
              | some x => x
              | none => 0))).sum :=
  C9_view_cart 1 dbC9 (by decide)

end ECom
